import Mathlib

/-!
Verification of the sarah-media-stream-bridge relay (`src/server.js`).

The development shallowly embeds the bridge's pure codec/resampler
functions, the tool dispatcher, the Gemini-side message handler, and the
Twilio-side session event loop.  Machine integers are modelled as `Nat`/`Int`
(all values stay well inside 32-bit range on the code paths embedded here);
JavaScript `Float64` arithmetic in the downsampler is modelled by exact
rationals applied to the decimal literals written in the source; base64 and
byte-buffer plumbing is elided, so audio payloads are sample lists
(`List Nat` for mu-law bytes, `List Int` for 16-bit PCM samples).
-/

/-! ## Codec constants (server.js lines 32-47) -/

def BIAS : Nat := 0x84

def CLIP : Int := 32635

/-- The 256-entry exponent lookup table `EXP_LUT` (server.js lines 35-47),
row for row as in the source. -/
def EXP_LUT : List Nat :=
  [0, 0, 1, 1, 2, 2, 2, 2, 3, 3, 3, 3, 3, 3, 3, 3, 4, 4, 4, 4, 4, 4, 4, 4,
   4, 4, 4, 4, 4, 4, 4, 4, 5, 5, 5, 5, 5, 5, 5, 5, 5, 5, 5, 5, 5, 5, 5, 5,
   5, 5, 5, 5, 5, 5, 5, 5, 5, 5, 5, 5, 5, 5, 5, 5, 6, 6, 6, 6, 6, 6, 6, 6,
   6, 6, 6, 6, 6, 6, 6, 6, 6, 6, 6, 6, 6, 6, 6, 6, 6, 6, 6, 6, 6, 6, 6, 6,
   6, 6, 6, 6, 6, 6, 6, 6, 6, 6, 6, 6, 6, 6, 6, 6, 6, 6, 6, 6, 6, 6, 6, 6,
   6, 6, 6, 6, 6, 6, 6, 6, 7, 7, 7, 7, 7, 7, 7, 7, 7, 7, 7, 7, 7, 7, 7, 7,
   7, 7, 7, 7, 7, 7, 7, 7, 7, 7, 7, 7, 7, 7, 7, 7, 7, 7, 7, 7, 7, 7, 7, 7,
   7, 7, 7, 7, 7, 7, 7, 7, 7, 7, 7, 7, 7, 7, 7, 7, 7, 7, 7, 7, 7, 7, 7, 7,
   7, 7, 7, 7, 7, 7, 7, 7, 7, 7, 7, 7, 7, 7, 7, 7, 7, 7, 7, 7, 7, 7, 7, 7,
   7, 7, 7, 7, 7, 7, 7, 7, 7, 7, 7, 7, 7, 7, 7, 7, 7, 7, 7, 7, 7, 7, 7, 7,
   7, 7, 7, 7, 7, 7, 7, 7, 7, 7, 7, 7, 7, 7, 7, 7]

/-- `mulawEncode` (server.js lines 49-57).  The source computes the sign bit
as `(sample >> 8) & 0x80`, which on the int16-range inputs the program feeds
it equals `0x80` exactly when the sample is negative; the final
`~(...) & 0xff` is written as `... ^^^ 0xff`, identical on bytes. -/
def mulawEncode (sample : Int) : Nat :=
  let sign : Nat := if sample < 0 then 0x80 else 0
  let mag : Int := if sample < 0 then -sample else sample
  let mag : Int := if mag > CLIP then CLIP else mag
  let biased : Nat := (mag + (BIAS : Int)).toNat
  let exponent : Nat := EXP_LUT.getD ((biased >>> 7) &&& 0xff) 0
  let mantissa : Nat := (biased >>> (exponent + 3)) &&& 0x0f
  (sign ||| (exponent <<< 4) ||| mantissa) ^^^ 0xff

/-- Entry `i` of `MULAW_DECODE_TABLE` (server.js lines 59-70), as a function
of the byte index.  The source's `~i & 0xff` is written `i ^^^ 0xff`,
identical for byte indices. -/
def MULAW_DECODE_TABLE (i : Nat) : Int :=
  let val : Nat := i ^^^ 0xff
  let sign : Nat := val &&& 0x80
  let exponent : Nat := (val >>> 4) &&& 0x07
  let mantissa : Nat := val &&& 0x0f
  let magnitude : Int := ((((mantissa <<< 3) + BIAS) <<< exponent : Nat) : Int) - (BIAS : Int)
  if sign ≠ 0 then -magnitude else magnitude

/-! ## Resampling: 8kHz mu-law to 16kHz PCM (server.js lines 72-88) -/

/-- The interpolation stage of `twilioToGemini` (server.js lines 79-86), as a
function of the decoded 8kHz sample list.  The source fills an `Int16Array`
of twice the length: for `i < nSrc - 1` it writes the original sample at
`2*i` and `(pcm8k[i] + pcm8k[i+1]) >> 1` at `2*i + 1` (arithmetic right
shift, i.e. floor division by two — no int16 wrap is possible for averages
of int16 samples), then writes the last sample at the final two positions.
Below, output position `j` is expressed through the index map of that loop. -/
def upsample8kTo16k (xs : List Int) : List Int :=
  (List.range (2 * xs.length)).map fun j =>
    if j / 2 + 1 < xs.length then
      if j % 2 = 0 then xs.getD (j / 2) 0
      else Int.fdiv (xs.getD (j / 2) 0 + xs.getD (j / 2 + 1) 0) 2
    else xs.getD (xs.length - 1) 0

/-- `twilioToGemini` (server.js lines 72-88) at the sample level: mu-law
decode each inbound byte through `MULAW_DECODE_TABLE`, then upsample
(base64 and buffer framing elided). -/
def twilioToGemini (bytes : List Nat) : List Int :=
  upsample8kTo16k (bytes.map MULAW_DECODE_TABLE)

/-! ## Resampling: 24kHz PCM to 8kHz mu-law (server.js lines 90-125) -/

/-- The low-pass FIR coefficients `LP_COEFFS` (server.js lines 90-92).
`Float64` literals are modelled by the exact decimal rationals written in
the source. -/
def LP_COEFFS : List ℚ :=
  [0.0595, 0.099, 0.1571, 0.203, 0.2218, 0.203, 0.1571, 0.099, 0.0595]

def LP_LEN : Nat := LP_COEFFS.length

def LP_HALF : Nat := (LP_LEN - 1) >>> 1

/-- The in-place pre-emphasis loop of `geminiToTwilio` (server.js lines
104-109).  The `prev` register always holds the original previous sample,
so entry `i ≥ 1` becomes `x[i] - 0.4 * x[i-1]` over the original samples,
and entry 0 is left unchanged. -/
def preEmphasis (xs : List ℚ) : List ℚ :=
  (List.range xs.length).map fun i =>
    if i = 0 then xs.getD 0 0 else xs.getD i 0 - 0.4 * xs.getD (i - 1) 0

/-- JavaScript `Math.round`: round half toward positive infinity. -/
def jsRound (q : ℚ) : Int := ⌊q + 1 / 2⌋

/-- `geminiToTwilio` (server.js lines 96-125) at the sample level: the input
is the decoded little-endian int16 sample list; pre-emphasis, then for each
of the `nSrc / 3` output positions a 9-tap FIR centered at `i * 3` with
out-of-range taps skipped, rounding, clamping to int16 and mu-law encoding.
The accumulation loop over the taps is rendered as a sum over `LP_LEN`. -/
def geminiToTwilio (xs : List Int) : List Nat :=
  (List.range (xs.length / 3)).map fun (i : Nat) =>
    let center : Int := (i : Int) * 3
    let acc : ℚ := ∑ k in Finset.range LP_LEN,
      (if 0 ≤ center - (LP_HALF : Int) + (k : Int) ∧
          center - (LP_HALF : Int) + (k : Int) < (xs.length : Int)
       then (preEmphasis (xs.map fun (v : Int) => (v : ℚ))).getD
              (center - (LP_HALF : Int) + (k : Int)).toNat 0 * LP_COEFFS.getD k 0
       else 0)
    mulawEncode (max (-32768) (min 32767 (jsRound acc)))

/-! ## Index bookkeeping helpers -/

lemma getD_map_range {α : Type} (f : Nat → α) (m j : Nat) (d : α) :
    ((List.range m).map f).getD j d = if j < m then f j else d := by
  rcases Nat.lt_or_ge j m with h | h
  · rw [List.getD_eq_getElem?_getD, List.getElem?_map, List.getElem?_range h]
    simp [h]
  · rw [List.getD_eq_getElem?_getD, List.getElem?_map,
      List.getElem?_eq_none (by simpa using h)]
    simp [Nat.not_lt.mpr h]

lemma optmap_cast_getD (o : Option Int) :
    (Option.map (fun (v : Int) => (v : ℚ)) o).getD 0 = ((o.getD 0 : Int) : ℚ) := by
  cases o <;> simp

set_option maxRecDepth 100000 in
/-- C1: for every byte b, re-encoding the mu-law-decoded sample of b yields a
byte in the same quantization bucket: it decodes to the same sample value. -/
theorem mulaw_roundtrip_bucket :
    ∀ b : Fin 256,
      MULAW_DECODE_TABLE (mulawEncode (MULAW_DECODE_TABLE b.val)) = MULAW_DECODE_TABLE b.val := by
  decide

/-! ## Claim-side predicates for the resampler -/

/-- The interpolation contract claimed for the upsampler: twice the length;
for each adjacent input pair the original sample followed by their average
rounded down (the source's `>> 1`); final output pair duplicates the last
input sample. -/
def UpsampleInterpolates (xs : List Int) : Prop :=
  (upsample8kTo16k xs).length = 2 * xs.length ∧
  (∀ i, i + 1 < xs.length →
    (upsample8kTo16k xs).getD (2 * i) 0 = xs.getD i 0 ∧
    (upsample8kTo16k xs).getD (2 * i + 1) 0
      = Int.fdiv (xs.getD i 0 + xs.getD (i + 1) 0) 2) ∧
  (upsample8kTo16k xs).getD (2 * xs.length - 2) 0 = xs.getD (xs.length - 1) 0 ∧
  (upsample8kTo16k xs).getD (2 * xs.length - 1) 0 = xs.getD (xs.length - 1) 0

/-- C4: upsampling a non-empty sample list doubles the length, interleaves
originals with floor-rounded neighbour averages, duplicates the final
sample, and maps a singleton `[x]` to `[x, x]`. -/
theorem upsample_linear_interpolation (xs : List Int) (h : xs ≠ []) :
    UpsampleInterpolates xs ∧ ∀ x : Int, upsample8kTo16k [x] = [x, x] := by
  have hn : 0 < xs.length := List.length_pos.mpr h
  refine ⟨⟨?_, ?_, ?_, ?_⟩, ?_⟩
  · simp [upsample8kTo16k]
  · intro i hi
    constructor
    · rw [upsample8kTo16k, getD_map_range, if_pos (by omega : 2 * i < 2 * xs.length)]
      have h1 : 2 * i / 2 + 1 < xs.length := by omega
      have h2 : 2 * i % 2 = 0 := by omega
      rw [if_pos h1, if_pos h2]
      have h3 : 2 * i / 2 = i := by omega
      rw [h3]
    · rw [upsample8kTo16k, getD_map_range, if_pos (by omega : 2 * i + 1 < 2 * xs.length)]
      have h1 : (2 * i + 1) / 2 + 1 < xs.length := by omega
      have h2 : ¬ (2 * i + 1) % 2 = 0 := by omega
      rw [if_pos h1, if_neg h2]
      have h3 : (2 * i + 1) / 2 = i := by omega
      rw [h3]
  · rw [upsample8kTo16k, getD_map_range, if_pos (by omega : 2 * xs.length - 2 < 2 * xs.length)]
    have h1 : ¬ ((2 * xs.length - 2) / 2 + 1 < xs.length) := by omega
    rw [if_neg h1]
  · rw [upsample8kTo16k, getD_map_range, if_pos (by omega : 2 * xs.length - 1 < 2 * xs.length)]
    have h1 : ¬ ((2 * xs.length - 1) / 2 + 1 < xs.length) := by omega
    rw [if_neg h1]
  · intro x
    simp [upsample8kTo16k, List.range_succ]

/-- Witness for C4 at the concrete input `[1, 2]`. -/
theorem upsample_linear_interpolation_witness :
    (([1, 2] : List Int) ≠ []) ∧
    (UpsampleInterpolates [1, 2] ∧ ∀ x : Int, upsample8kTo16k [x] = [x, x]) :=
  ⟨by decide, upsample_linear_interpolation [1, 2] (by decide)⟩

/-- C9: downsampling n input samples yields exactly n / 3 mu-law bytes. -/
theorem downsample_length (xs : List Int) :
    (geminiToTwilio xs).length = xs.length / 3 := by
  rw [geminiToTwilio, List.length_map, List.length_range]

/-! ## Claim-side description of the downsampler (C8) -/

/-- Pre-emphasis as the claim words it: `y[i] = x[i] - 0.4 * x[i-1]` with the
out-of-range term `x[-1]` treated as zero. -/
def preEmphSpec (xs : List Int) (i : Nat) : ℚ :=
  (xs.getD i 0 : ℚ) - 0.4 * (if i = 0 then 0 else (xs.getD (i - 1) 0 : ℚ))

/-- Tap `k` of the 9-tap FIR for output `i`, as the claim words it: the
filter is centered on sample `3 * i` of the pre-emphasized signal (taps at
indices `3*i - 4 .. 3*i + 4`), out-of-range taps contribute zero. -/
def DownsampleTapSpec (xs : List Int) (i k : Nat) : ℚ :=
  if 0 ≤ (i : Int) * 3 - 4 + (k : Int) ∧ (i : Int) * 3 - 4 + (k : Int) < (xs.length : Int)
  then preEmphSpec xs ((i : Int) * 3 - 4 + (k : Int)).toNat * LP_COEFFS.getD k 0
  else 0

lemma preEmphasis_map_getD (xs : List Int) (j : Nat) (hj : j < xs.length) :
    (preEmphasis (xs.map fun (v : Int) => (v : ℚ))).getD j 0 = preEmphSpec xs j := by
  rw [preEmphasis]
  have hlen : (xs.map fun (v : Int) => (v : ℚ)).length = xs.length := List.length_map _ _
  rw [hlen, getD_map_range, if_pos hj]
  by_cases h0 : j = 0
  · subst h0
    simp [preEmphSpec, optmap_cast_getD]
  · rw [if_neg h0]
    simp [preEmphSpec, optmap_cast_getD, h0]

/-- C8: each downsampler output byte is the mu-law encoding of the rounded,
int16-clamped 9-tap FIR response (coefficients `LP_COEFFS`) centered at
every third sample of the pre-emphasized signal `y[i] = x[i] - 0.4*x[i-1]`
(with `x[-1]` treated as zero), out-of-range taps contributing zero.
JavaScript float arithmetic is modelled by exact rationals. -/
theorem downsample_filter_structure (xs : List Int) (i : Nat) (h : i < xs.length / 3) :
    (geminiToTwilio xs).getD i 0
      = mulawEncode (max (-32768) (min 32767 (jsRound
          (∑ k in Finset.range 9, DownsampleTapSpec xs i k)))) := by
  have hsum :
      (∑ k in Finset.range LP_LEN,
        (if 0 ≤ (i : Int) * 3 - (LP_HALF : Int) + (k : Int) ∧
            (i : Int) * 3 - (LP_HALF : Int) + (k : Int) < (xs.length : Int)
         then (preEmphasis (xs.map fun (v : Int) => (v : ℚ))).getD
                ((i : Int) * 3 - (LP_HALF : Int) + (k : Int)).toNat 0 * LP_COEFFS.getD k 0
         else 0))
        = ∑ k in Finset.range 9, DownsampleTapSpec xs i k := by
    rw [show LP_LEN = 9 from rfl]
    refine Finset.sum_congr rfl fun k hk => ?_
    rw [Finset.mem_range] at hk
    rw [DownsampleTapSpec, show ((LP_HALF : Int) = 4) from rfl]
    by_cases hin : 0 ≤ (i : Int) * 3 - 4 + (k : Int) ∧
        (i : Int) * 3 - 4 + (k : Int) < (xs.length : Int)
    · rw [if_pos hin, if_pos hin]
      rw [preEmphasis_map_getD xs _ (by omega)]
    · rw [if_neg hin, if_neg hin]
  rw [geminiToTwilio, getD_map_range, if_pos h]
  simp only []
  rw [hsum]

/-- Witness for C8 at the concrete input `[0, 0, 0]`, output index 0. -/
theorem downsample_filter_structure_witness :
    (0 < ([0, 0, 0] : List Int).length / 3) ∧
    (geminiToTwilio [0, 0, 0]).getD 0 0
      = mulawEncode (max (-32768) (min 32767 (jsRound
          (∑ k in Finset.range 9, DownsampleTapSpec [0, 0, 0] 0 k)))) :=
  ⟨by decide, downsample_filter_structure [0, 0, 0] 0 (by decide)⟩

/-! ## Tool dispatcher (server.js lines 145-176) -/

/-- Whether `resp.json()` succeeds; `jsonMalformed` carries the parse-error
message of the exception `await resp.json()` would throw. -/
inductive BodyOutcome : Type
  | jsonOk (payload : String)
  | jsonMalformed (msg : String)

/-- Outcome of the single `fetch` to the Base44 backend, as seen by
`callBase44`: either the promise rejects (network failure / thrown error),
or an HTTP response arrives with a status code and a body that parses as
JSON or not.  Per the fetch specification `resp.ok` is `200 ≤ status < 300`. -/
inductive FetchOutcome : Type
  | netError (msg : String)
  | httpResponse (status : Nat) (body : BodyOutcome)

/-- The value `callBase44` resolves with: the parsed response mapping, or a
soft error mapping of the form `\x7berror: msg\x7d`. -/
inductive ToolResult : Type
  | payload (s : String)
  | softError (msg : String)
deriving DecidableEq

/-- One HTTP POST issued to the backend: URL, Authorization header and JSON
body fields `\x7baction, companyId, data\x7d` (server.js lines 152-163). -/
structure BackendRequest : Type where
  url : String
  authHeader : String
  action : String
  companyId : String
  data : String
deriving DecidableEq

/-- `callBase44` (server.js lines 145-176).  Returns the resolved mapping
together with the list of HTTP requests issued (empty when no URL is
configured, one otherwise — the source has no retry path).  The `try/catch`
around the whole body means a rejected fetch or a malformed body resolves
to a soft error rather than throwing; this embedding is total, matching
that the function never throws. -/
def callBase44 (base44Url bridgeSecret action companyId data : String)
    (outcome : FetchOutcome) : ToolResult × List BackendRequest :=
  if base44Url = "" then (ToolResult.softError "Base44 API not configured", [])
  else
    let req : BackendRequest := ⟨base44Url, "Bearer " ++ bridgeSecret, action, companyId, data⟩
    match outcome with
    | FetchOutcome.netError m => (ToolResult.softError m, [req])
    | FetchOutcome.httpResponse status body =>
      if 200 ≤ status ∧ status < 300 then
        match body with
        | BodyOutcome.jsonOk payload => (ToolResult.payload payload, [req])
        | BodyOutcome.jsonMalformed m => (ToolResult.softError m, [req])
      else
        (ToolResult.softError ("Base44 " ++ action ++ " failed: " ++ toString status), [req])

/-! ## Gemini-side message handling (server.js lines 439-530) -/

/-- One entry of `toolCall.functionCalls`: correlation id, function name and
argument mapping (arguments kept abstract as a string). -/
structure FunctionCall : Type where
  id : String
  name : String
  args : String
deriving DecidableEq

/-- One entry pushed onto `toolResponses` (server.js lines 514-518). -/
structure ToolResponseEntry : Type where
  id : String
  name : String
  response : ToolResult
deriving DecidableEq

/-- One part of `serverContent.modelTurn.parts`: whether it carries
`inlineData` with an `audio/*` mime type, and its decoded PCM payload. -/
structure MsgPart : Type where
  isAudio : Bool
  data : List Int
deriving DecidableEq

/-- A parsed Gemini websocket message, restricted to the fields the handler
reads: `serverContent.modelTurn.parts`, `serverContent.interrupted`,
`serverContent.turnComplete` (never read by this handler) and
`toolCall.functionCalls`. -/
structure GeminiMessage : Type where
  modelTurnParts : List MsgPart
  interrupted : Bool
  turnComplete : Bool
  toolCall : Option (List FunctionCall)
deriving DecidableEq

/-- A message sent to the Twilio socket by the Gemini handler. -/
inductive TwilioSend : Type
  | media (streamSid : String) (payload : List Nat)
  | clear (streamSid : String)
deriving DecidableEq

/-- A message sent back to the Gemini socket by the handler. -/
inductive GeminiSendMsg : Type
  | toolResponse (entries : List ToolResponseEntry)
deriving DecidableEq

/-- The `if/else if` dispatch for one function call (server.js lines
489-512): the three known tool names call the backend (the per-call
`try/catch` is subsumed by `callBase44` being total); any other name makes
no backend call and produces the soft error mapping. The backend oracle maps
(action, args) to the fetch outcome of that single call. -/
def dispatchTool (url secret companyId : String)
    (backend : String → String → FetchOutcome) (call : FunctionCall) :
    ToolResult × List BackendRequest :=
  if call.name = "check_availability" then
    callBase44 url secret "checkAvailability" companyId call.args
      (backend "checkAvailability" call.args)
  else if call.name = "book_appointment" then
    callBase44 url secret "bookAppointment" companyId call.args
      (backend "bookAppointment" call.args)
  else if call.name = "save_lead_details" then
    callBase44 url secret "saveLead" companyId call.args
      (backend "saveLead" call.args)
  else
    (ToolResult.softError ("Unknown tool: " ++ call.name), [])

/-- The `toolResponses` array accumulated over `functionCalls` (server.js
lines 487-519): one entry per call, carrying the call's id and name. -/
def toolEntries (url secret companyId : String)
    (backend : String → String → FetchOutcome) (calls : List FunctionCall) :
    List ToolResponseEntry :=
  calls.map fun c => ⟨c.id, c.name, (dispatchTool url secret companyId backend c).1⟩

/-- All backend requests issued while handling one `toolCall` batch. -/
def toolRequests (url secret companyId : String)
    (backend : String → String → FetchOutcome) (calls : List FunctionCall) :
    List BackendRequest :=
  (calls.map fun c => (dispatchTool url secret companyId backend c).2).flatten

/-- The `geminiWs.on("message")` handler (server.js lines 439-530) for one
parsed message: audio parts are converted and sent to Twilio when a stream
id is set and the socket is open; `interrupted` sends a `clear` with the
stream id under the same guard; a `toolCall` optionally plays the typing
sound, dispatches every function call and sends back exactly one
`tool_response`.  Returns (messages to Twilio, messages to Gemini, backend
requests issued). -/
def handleGeminiMessage (typing : Bool) (typingSound : List Nat)
    (url secret companyId : String) (backend : String → String → FetchOutcome)
    (streamSid : Option String) (twilioOpen : Bool) (msg : GeminiMessage) :
    List TwilioSend × List GeminiSendMsg × List BackendRequest :=
  let audioSends : List TwilioSend := msg.modelTurnParts.filterMap fun part =>
    if part.isAudio then
      match streamSid, twilioOpen with
      | some sid, true => some (TwilioSend.media sid (geminiToTwilio part.data))
      | _, _ => none
    else none
  let interruptSends : List TwilioSend :=
    if msg.interrupted then
      match streamSid, twilioOpen with
      | some sid, true => [TwilioSend.clear sid]
      | _, _ => []
    else []
  match msg.toolCall with
  | none => (audioSends ++ interruptSends, [], [])
  | some calls =>
    let typingSends : List TwilioSend :=
      if typing then
        match streamSid, twilioOpen with
        | some sid, true => [TwilioSend.media sid typingSound]
        | _, _ => []
      else []
    (audioSends ++ interruptSends ++ typingSends,
     [GeminiSendMsg.toolResponse (toolEntries url secret companyId backend calls)],
     toolRequests url secret companyId backend calls)

/-- C6: tool dispatch failures are soft.  A rejected fetch, a non-2xx
status, or a malformed body each make `callBase44` resolve with an
error mapping (never a thrown exception — the embedding is total), with
exactly one HTTP attempt and no retries (at most one request ever); and a
`toolCall` batch always produces exactly one `tool_response` message with
one result entry per function call. -/
theorem tool_dispatch_soft_errors :
    (∀ url secret action cid data m, url ≠ "" →
      callBase44 url secret action cid data (FetchOutcome.netError m)
        = (ToolResult.softError m, [⟨url, "Bearer " ++ secret, action, cid, data⟩])) ∧
    (∀ url secret action cid data status body, url ≠ "" → ¬ (200 ≤ status ∧ status < 300) →
      callBase44 url secret action cid data (FetchOutcome.httpResponse status body)
        = (ToolResult.softError ("Base44 " ++ action ++ " failed: " ++ toString status),
           [⟨url, "Bearer " ++ secret, action, cid, data⟩])) ∧
    (∀ url secret action cid data status m, url ≠ "" → 200 ≤ status → status < 300 →
      callBase44 url secret action cid data
          (FetchOutcome.httpResponse status (BodyOutcome.jsonMalformed m))
        = (ToolResult.softError m, [⟨url, "Bearer " ++ secret, action, cid, data⟩])) ∧
    (∀ url secret action cid data outcome,
      (callBase44 url secret action cid data outcome).2.length ≤ 1) ∧
    (∀ typing ts url secret cid backend sid topen parts intr tc calls,
      (handleGeminiMessage typing ts url secret cid backend sid topen
          ⟨parts, intr, tc, some calls⟩).2.1
        = [GeminiSendMsg.toolResponse (toolEntries url secret cid backend calls)] ∧
      (toolEntries url secret cid backend calls).length = calls.length) := by
  refine ⟨?_, ?_, ?_, ?_, ?_⟩
  · intro url secret action cid data m hurl
    simp [callBase44, hurl]
  · intro url secret action cid data status body hurl hbad
    simp [callBase44, hurl, hbad]
  · intro url secret action cid data status m hurl h1 h2
    simp [callBase44, hurl, h1, h2]
  · intro url secret action cid data outcome
    rw [callBase44]
    split
    · simp
    · rcases outcome with m | ⟨status, body⟩
      · simp
      · dsimp only
        split
        · rcases body with p | m <;> simp
        · simp
  · intro typing ts url secret cid backend sid topen parts intr tc calls
    exact ⟨rfl, by simp [toolEntries]⟩

/-- Witness for C6: a rejected fetch with a configured URL resolves to the
soft error mapping after exactly one attempt. -/
theorem tool_dispatch_soft_errors_witness :
    (("https://api" : String) ≠ "") ∧
    callBase44 "https://api" "s3cret" "checkAvailability" "c1" "d" (FetchOutcome.netError "boom")
      = (ToolResult.softError "boom",
         [⟨"https://api", "Bearer " ++ "s3cret", "checkAvailability", "c1", "d"⟩]) :=
  ⟨by decide,
   tool_dispatch_soft_errors.1 "https://api" "s3cret" "checkAvailability" "c1" "d" "boom"
     (by decide)⟩

/-- C7: whenever a Gemini message with `serverContent.interrupted` arrives
while the session has a stream id and the Twilio socket is open, the handler
sends a `clear` message carrying the stream id.  The handler keeps no state
about past turns, so this holds for every such message — in particular for
one arriving before any `turnComplete` (the field is never even read). -/
theorem interrupted_sends_clear (typing : Bool) (typingSound : List Nat)
    (url secret cid : String) (backend : String → String → FetchOutcome)
    (sid : String) (msg : GeminiMessage) (h : msg.interrupted = true) :
    TwilioSend.clear sid
      ∈ (handleGeminiMessage typing typingSound url secret cid backend
          (some sid) true msg).1 := by
  rcases msg with ⟨parts, intr, tc, tcall⟩
  simp only [GeminiMessage.interrupted] at h
  subst h
  rcases tcall with _ | calls <;> simp [handleGeminiMessage]

/-- Witness for C7: an interrupted-only message with no turnComplete yields
a clear for the stream id. -/
theorem interrupted_sends_clear_witness :
    (GeminiMessage.mk [] true false none).interrupted = true ∧
    TwilioSend.clear "MZ123"
      ∈ (handleGeminiMessage false [] "" "" "" (fun _ _ => FetchOutcome.netError "")
          (some "MZ123") true (GeminiMessage.mk [] true false none)).1 :=
  ⟨rfl,
   interrupted_sends_clear false [] "" "" "" (fun _ _ => FetchOutcome.netError "")
     "MZ123" (GeminiMessage.mk [] true false none) rfl⟩

/-- C10: a function call whose name is none of the three declared tools
makes no backend request, and its batched response entry is the soft error
mapping, still carrying the call's correlation id and name. -/
theorem unknown_tool_soft_error (url secret cid : String)
    (backend : String → String → FetchOutcome) (call : FunctionCall)
    (h1 : call.name ≠ "check_availability") (h2 : call.name ≠ "book_appointment")
    (h3 : call.name ≠ "save_lead_details") :
    dispatchTool url secret cid backend call
      = (ToolResult.softError ("Unknown tool: " ++ call.name), []) ∧
    ∀ typing ts sid topen parts intr tc,
      (handleGeminiMessage typing ts url secret cid backend sid topen
          ⟨parts, intr, tc, some [call]⟩).2
        = ([GeminiSendMsg.toolResponse
              [⟨call.id, call.name, ToolResult.softError ("Unknown tool: " ++ call.name)⟩]],
           []) := by
  have hd : dispatchTool url secret cid backend call
      = (ToolResult.softError ("Unknown tool: " ++ call.name), []) := by
    simp [dispatchTool, h1, h2, h3]
  refine ⟨hd, ?_⟩
  intro typing ts sid topen parts intr tc
  simp [handleGeminiMessage, toolEntries, toolRequests, hd]

/-- Witness for C10 with the unknown tool name "transfer_call". -/
theorem unknown_tool_soft_error_witness :
    (("transfer_call" : String) ≠ "check_availability" ∧
     ("transfer_call" : String) ≠ "book_appointment" ∧
     ("transfer_call" : String) ≠ "save_lead_details") ∧
    (dispatchTool "https://api" "s" "c1" (fun _ _ => FetchOutcome.netError "x")
        ⟨"fc1", "transfer_call", "a"⟩
      = (ToolResult.softError ("Unknown tool: " ++ "transfer_call"), []) ∧
     ∀ typing ts sid topen parts intr tc,
      (handleGeminiMessage typing ts "https://api" "s" "c1"
          (fun _ _ => FetchOutcome.netError "x") sid topen
          ⟨parts, intr, tc, some [⟨"fc1", "transfer_call", "a"⟩]⟩).2
        = ([GeminiSendMsg.toolResponse
              [⟨"fc1", "transfer_call", ToolResult.softError ("Unknown tool: " ++ "transfer_call")⟩]],
           [])) :=
  ⟨⟨by decide, by decide, by decide⟩,
   unknown_tool_soft_error "https://api" "s" "c1" (fun _ _ => FetchOutcome.netError "x")
     ⟨"fc1", "transfer_call", "a"⟩ (by decide) (by decide) (by decide)⟩

/-! ## Twilio-side session handling (server.js lines 283-580)

The connection handler creates the Gemini websocket (the Model Link)
unconditionally during connection setup (line 355), before any Twilio
message is processed; `BRIDGE_SECRET` (line 6) is in scope but the message
handler never reads it.  The per-session mutable state visible to the
Twilio message handler is `streamSid` and the Gemini socket's readiness. -/

/-- A parsed inbound Twilio frame, keyed by `event` (the source reads only
`msg.start.streamSid` from `start`; any custom parameters — including a
would-be shared secret — are carried here to state that they are ignored). -/
inductive TwilioEvent : Type
  | connected
  | start (streamSid : String) (customParameters : List (String × String))
  | media (payload : List Nat)
  | stop
deriving DecidableEq

/-- Session state the Twilio message handler closes over: whether the
Gemini websocket was created (line 355 — set during connection setup),
whether its readyState is OPEN, and the stream id. -/
structure BridgeState : Type where
  linkCreated : Bool
  geminiOpen : Bool
  streamSid : Option String
deriving DecidableEq

/-- State after the connection handler's setup block: the Gemini websocket
exists (created at line 355, before the message handler runs), is still
CONNECTING, and no start event has arrived. -/
def initState : BridgeState :=
  { linkCreated := true, geminiOpen := false, streamSid := none }

/-- An outbound effect of the Twilio message handler. -/
inductive OutMsg : Type
  | toGemini (samples : List Int)
  | closeGemini
deriving DecidableEq

/-- The `twilioWs.on("message")` handler (server.js lines 542-574).
`start` records the stream id (nothing else — no secret comparison);
`media` converts and forwards if and only if the Gemini socket is OPEN
(otherwise the frame is discarded — there is no queue in the state);
`stop` calls `geminiWs.close()`.  `bridgeSecret` is the configured
`BRIDGE_SECRET`, unused by this handler exactly as in the source. -/
def stepTwilio (bridgeSecret : String) (st : BridgeState) :
    TwilioEvent → BridgeState × List OutMsg
  | TwilioEvent.connected => (st, [])
  | TwilioEvent.start sid _params => ({ st with streamSid := some sid }, [])
  | TwilioEvent.media payload =>
      if st.geminiOpen then (st, [OutMsg.toGemini (twilioToGemini payload)])
      else (st, [])
  | TwilioEvent.stop => ({ st with geminiOpen := false }, [OutMsg.closeGemini])

/-- An input to the session: the Gemini socket's `open` event, or an inbound
Twilio frame. -/
inductive BridgeInput : Type
  | geminiOpened
  | twilioMsg (e : TwilioEvent)
deriving DecidableEq

/-- One step of the session event loop. -/
def stepInput (bridgeSecret : String) (st : BridgeState) :
    BridgeInput → BridgeState × List OutMsg
  | BridgeInput.geminiOpened => ({ st with geminiOpen := true }, [])
  | BridgeInput.twilioMsg e => stepTwilio bridgeSecret st e

/-- Run the session event loop from a given state, collecting all outbound
effects in order. -/
def runBridgeFrom (bridgeSecret : String) (st : BridgeState) :
    List BridgeInput → BridgeState × List OutMsg
  | [] => (st, [])
  | e :: rest =>
    let out := stepInput bridgeSecret st e
    let next := runBridgeFrom bridgeSecret out.1 rest
    (next.1, out.2 ++ next.2)

/-- Run a whole session from connection setup. -/
def runBridge (bridgeSecret : String) (events : List BridgeInput) :
    BridgeState × List OutMsg :=
  runBridgeFrom bridgeSecret initState events

/-- The audio frames actually forwarded to the Gemini socket, in order. -/
def forwardedFrames (outs : List OutMsg) : List (List Int) :=
  outs.filterMap fun m =>
    match m with
    | OutMsg.toGemini samples => some samples
    | OutMsg.closeGemini => none

/-- Claim-side reference trace: the media payloads that arrive while the
Model Link socket is open (it opens on `geminiOpened` and closes on
`stop`), in arrival order. -/
def mediaWhileOpen : Bool → List BridgeInput → List (List Nat)
  | _, [] => []
  | _, BridgeInput.geminiOpened :: rest => mediaWhileOpen true rest
  | opn, BridgeInput.twilioMsg (TwilioEvent.media p) :: rest =>
      if opn then p :: mediaWhileOpen opn rest else mediaWhileOpen opn rest
  | _, BridgeInput.twilioMsg TwilioEvent.stop :: rest => mediaWhileOpen false rest
  | opn, BridgeInput.twilioMsg (TwilioEvent.start _ _) :: rest => mediaWhileOpen opn rest
  | opn, BridgeInput.twilioMsg TwilioEvent.connected :: rest => mediaWhileOpen opn rest

lemma forwardedFrames_append (a b : List OutMsg) :
    forwardedFrames (a ++ b) = forwardedFrames a ++ forwardedFrames b :=
  List.filterMap_append a b _

lemma forwardedFrames_runBridgeFrom (secret : String) (events : List BridgeInput) :
    ∀ st : BridgeState,
      forwardedFrames (runBridgeFrom secret st events).2
        = (mediaWhileOpen st.geminiOpen events).map twilioToGemini := by
  induction events with
  | nil => intro st; simp [runBridgeFrom, forwardedFrames, mediaWhileOpen]
  | cons e rest ih =>
    intro st
    rcases e with _ | te
    · rw [runBridgeFrom]
      simp only [stepInput]
      rw [forwardedFrames_append, mediaWhileOpen, ih]
      simp [forwardedFrames]
    · rcases te with _ | ⟨sid, params⟩ | p | _
      · rw [runBridgeFrom]
        simp only [stepInput, stepTwilio]
        rw [forwardedFrames_append, mediaWhileOpen, ih]
        simp [forwardedFrames]
      · rw [runBridgeFrom]
        simp only [stepInput, stepTwilio]
        rw [forwardedFrames_append, mediaWhileOpen, ih]
        simp [forwardedFrames]
      · rw [runBridgeFrom]
        simp only [stepInput, stepTwilio]
        by_cases hOpen : st.geminiOpen
        · rw [if_pos hOpen, forwardedFrames_append, mediaWhileOpen, if_pos hOpen, ih]
          simp [forwardedFrames]
        · rw [if_neg hOpen, forwardedFrames_append, mediaWhileOpen,
            if_neg hOpen, ih]
          simp [forwardedFrames]
      · rw [runBridgeFrom]
        simp only [stepInput, stepTwilio]
        rw [forwardedFrames_append, mediaWhileOpen, ih]
        simp [forwardedFrames]

/-- C2 counterexample: a media frame arriving before the Gemini socket opens
is never forwarded, not even after the socket opens — there is no
OutboundQueue holding it.  In the run below the pre-open frame `[1]` is
absent from every outbound message; only the post-open frame `[2]` is
forwarded. -/
theorem outbound_queue_counterexample :
    (runBridge "" [BridgeInput.twilioMsg (TwilioEvent.media [1]),
                   BridgeInput.geminiOpened,
                   BridgeInput.twilioMsg (TwilioEvent.media [2])]).2
      = [OutMsg.toGemini (twilioToGemini [2])] ∧
    OutMsg.toGemini (twilioToGemini [1])
      ∉ (runBridge "" [BridgeInput.twilioMsg (TwilioEvent.media [1]),
                       BridgeInput.geminiOpened,
                       BridgeInput.twilioMsg (TwilioEvent.media [2])]).2 := by
  decide

/-- C2 amended: there is no OutboundQueue.  A media frame arriving while the
Model Link socket is not OPEN is silently discarded; exactly the frames
arriving while it is open are converted and forwarded, in arrival order
(so a frame is indeed never forwarded to a non-open link, but pre-ready
frames are dropped rather than held). -/
theorem media_forwarded_iff_link_open (secret : String) (events : List BridgeInput) :
    forwardedFrames (runBridge secret events).2
      = (mediaWhileOpen initState.geminiOpen events).map twilioToGemini :=
  forwardedFrames_runBridgeFrom secret events initState

/-- C3 counterexample: with the shared secret "s3cret" configured, a start
event whose custom parameters carry the wrong secret does not close the
session — the subsequent media event is still processed and forwarded. -/
theorem auth_gate_counterexample :
    (runBridge "s3cret"
        [BridgeInput.twilioMsg (TwilioEvent.start "MZ1" [("secret", "wrong")]),
         BridgeInput.geminiOpened,
         BridgeInput.twilioMsg (TwilioEvent.media [0])]).2
      = [OutMsg.toGemini (twilioToGemini [0])] := by
  decide

/-- C3 amended: no authentication is performed on the call-start event.  The
handler's behaviour is independent of the configured secret and of any
custom parameters carried by the start event; every session proceeds. -/
theorem start_secret_ignored (s t : String) (st : BridgeState) (e : TwilioEvent) :
    stepTwilio s st e = stepTwilio t st e ∧
    ∀ sid params params',
      stepTwilio s st (TwilioEvent.start sid params)
        = stepTwilio s st (TwilioEvent.start sid params') := by
  constructor
  · cases e <;> rfl
  · intro sid params params'
    rfl

/-- C5 counterexample: the Model Link exists before any start event (it is
created during connection setup), a stop arriving before any start closes
that link (so some Model Link had been created — not a no-op in the claimed
sense), and a media event arriving before any start is forwarded once the
link socket is open (not ignored). -/
theorem stop_before_start_counterexample :
    initState.linkCreated = true ∧
    (stepTwilio "" initState TwilioEvent.stop).2 = [OutMsg.closeGemini] ∧
    (runBridge "" [BridgeInput.geminiOpened,
                   BridgeInput.twilioMsg (TwilioEvent.media [3])]).2
      = [OutMsg.toGemini (twilioToGemini [3])] := by
  decide

/-- C5 amended: the Model Link is created at connection time, before any
telephony event; a stop event (whether or not a start was seen) closes that
link; and a media event with no start yet is forwarded whenever the link
socket is open, so neither event is gated on start. -/
theorem link_created_at_connection (secret : String) (st : BridgeState) (p : List Nat) :
    initState.linkCreated = true ∧
    stepTwilio secret st TwilioEvent.stop
      = ({ st with geminiOpen := false }, [OutMsg.closeGemini]) ∧
    stepTwilio secret { st with streamSid := none, geminiOpen := true }
        (TwilioEvent.media p)
      = ({ st with streamSid := none, geminiOpen := true },
         [OutMsg.toGemini (twilioToGemini p)]) :=
  ⟨rfl, rfl, rfl⟩
